import Mathlib

/-!
A shallow embedding of the `tui-daemon` TUI controller (Rust sources under
`src/`): the application state (`src/app.rs`), the gRPC client wrapper
(`src/grpc/client.rs`), the key/tick dispatcher (`src/main.rs`), and the
byte/percentage formatting of the dashboard (`src/ui/dashboard.rs`).

Conventions of the embedding:
* Async RPC outcomes (connect, get_status, get_metrics, control) are supplied
  by an `Oracle` record: each field is the `Result` the corresponding call
  would return.  The loop is sequential, so one oracle per dispatched event
  is faithful.
* `chrono::Local::now().format(..)` timestamps are opaque strings supplied as
  a `ts` parameter; no verified property inspects their value.
* Rust `usize`/`u64` become `Nat` (the code only uses saturating/guarded
  arithmetic on them, so no wraparound arises); `f64` dashboard arithmetic is
  modelled over `ℚ` with exact rounding where digits are printed.
-/

namespace TuiDaemon

/-- `ConnectionStatus` from `src/app.rs`. -/
inductive ConnectionStatus where
  | Disconnected
  | Connecting
  | Connected
  | Error (msg : String)
  deriving DecidableEq, Repr

/-- `FocusedPanel` from `src/app.rs`. -/
inductive FocusedPanel where
  | Status
  | Controls
  | Logs
  deriving DecidableEq, Repr

/-- `FocusedPanel::next` from `src/app.rs`. -/
def FocusedPanel.next : FocusedPanel → FocusedPanel
  | .Status => .Controls
  | .Controls => .Logs
  | .Logs => .Status

/-- `FocusedPanel::prev` from `src/app.rs`. -/
def FocusedPanel.prev : FocusedPanel → FocusedPanel
  | .Status => .Logs
  | .Controls => .Status
  | .Logs => .Controls

/-- `ControlAction` from `src/app.rs`. -/
inductive ControlAction where
  | Start
  | Stop
  | Restart
  | Reload
  deriving DecidableEq, Repr

/-- `ControlAction::ALL` from `src/app.rs`. -/
def ControlAction.ALL : List ControlAction :=
  [.Start, .Stop, .Restart, .Reload]

/-- `ControlAction::label` from `src/app.rs`. -/
def ControlAction.label : ControlAction → String
  | .Start => "Start"
  | .Stop => "Stop"
  | .Restart => "Restart"
  | .Reload => "Reload"

/-- `LogEntry` from `src/app.rs`. -/
structure LogEntry where
  timestamp : String
  level : String
  message : String
  deriving DecidableEq, Repr

/-- Modelled from the spec: the generated protobuf type `StatusResponse`
(`GetStatus() -> {state: enum, version: string, uptime_seconds: uint,
message: string}`); the `.proto` file is not under `src/`, only the
generated-code include. `state` is the raw wire integer, as in the
generated code (`app.rs` decodes it with `DaemonState::try_from`). -/
structure StatusResponse where
  state : Int
  version : String
  uptime_seconds : Nat
  message : String
  deriving DecidableEq, Repr

/-- Modelled from the spec: the generated protobuf type `MetricsResponse`
(`GetMetrics() -> {cpu_usage_percent: float, memory_bytes: uint64,
memory_limit_bytes: uint64, connections_active: uint, requests_total: uint,
errors_total: uint}`). The float field is modelled over `ℚ`. -/
structure MetricsResponse where
  cpu_usage_percent : ℚ
  memory_bytes : Nat
  memory_limit_bytes : Nat
  connections_active : Nat
  requests_total : Nat
  errors_total : Nat
  deriving DecidableEq, Repr

/-- Modelled from the spec: the generated protobuf type `ControlResponse`
(`Control(command) -> {success: bool, message: string}`). -/
structure ControlResponse where
  success : Bool
  message : String
  deriving DecidableEq, Repr

/-- `App` from `src/app.rs` (the `start_time : Instant` field is a dead
wall-clock value reserved for future use and is omitted; `status_message`
is kept). -/
structure App where
  should_quit : Bool
  connection_status : ConnectionStatus
  focused_panel : FocusedPanel
  selected_action : Nat
  daemon_status : Option StatusResponse
  daemon_metrics : Option MetricsResponse
  logs : List LogEntry
  log_scroll : Nat
  daemon_address : String
  status_message : Option String
  deriving DecidableEq, Repr

namespace App

/-- `App::new` (via `Default` in `src/app.rs`, with the address overridden). -/
def new (daemon_address : String) : App where
  should_quit := false
  connection_status := .Disconnected
  focused_panel := .Status
  selected_action := 0
  daemon_status := none
  daemon_metrics := none
  logs := []
  log_scroll := 0
  daemon_address := daemon_address
  status_message := none

/-- `App::quit`. -/
def quit (a : App) : App := { a with should_quit := true }

/-- `App::focus_next`. -/
def focus_next (a : App) : App :=
  { a with focused_panel := a.focused_panel.next }

/-- `App::focus_prev`. -/
def focus_prev (a : App) : App :=
  { a with focused_panel := a.focused_panel.prev }

/-- `App::select_next_action`: `if self.selected_action < ControlAction::ALL.len() - 1`. -/
def select_next_action (a : App) : App :=
  if a.selected_action < ControlAction.ALL.length - 1 then
    { a with selected_action := a.selected_action + 1 }
  else a

/-- `App::select_prev_action`: `if self.selected_action > 0`. -/
def select_prev_action (a : App) : App :=
  if a.selected_action > 0 then
    { a with selected_action := a.selected_action - 1 }
  else a

/-- `App::current_action` (`ControlAction::ALL[self.selected_action]`); the
Rust indexing panics out of bounds, modelled with the list's default-total
`getD` only after the in-bounds invariant is available — here we keep the
partial access explicit via `List.getD` with `Start` never reached in
reachable states. -/
def current_action (a : App) : ControlAction :=
  ControlAction.ALL.getD a.selected_action .Start

/-- `App::scroll_logs_up`: `if self.log_scroll > 0`. -/
def scroll_logs_up (a : App) : App :=
  if a.log_scroll > 0 then { a with log_scroll := a.log_scroll - 1 } else a

/-- `App::scroll_logs_down`: `if self.log_scroll < self.logs.len().saturating_sub(1)`
(`Nat` subtraction is saturating). -/
def scroll_logs_down (a : App) : App :=
  if a.log_scroll < a.logs.length - 1 then
    { a with log_scroll := a.log_scroll + 1 }
  else a

/-- `App::add_log`: push the entry, then auto-scroll
(`self.log_scroll = self.logs.len().saturating_sub(1)`).  The chrono
timestamp is the opaque `ts` argument. -/
def add_log (a : App) (ts level message : String) : App :=
  let logs := a.logs ++ [⟨ts, level, message⟩]
  { a with logs := logs, log_scroll := logs.length - 1 }

/-- `App::set_connection_status`. -/
def set_connection_status (a : App) (status : ConnectionStatus) : App :=
  { a with connection_status := status }

/-- `App::update_status`. -/
def update_status (a : App) (status : StatusResponse) : App :=
  { a with daemon_status := some status }

/-- `App::update_metrics`. -/
def update_metrics (a : App) (metrics : MetricsResponse) : App :=
  { a with daemon_metrics := some metrics }

end App

/-- `DaemonClient` from `src/grpc/client.rs`: `client: Option<...>` is
abstracted to the boolean `connected` (whether a session object exists),
which is the only observation the program makes of it
(`is_connected`, and the `ok_or("Not connected to daemon")` guards). -/
structure DaemonClient where
  connected : Bool
  address : String
  deriving DecidableEq, Repr

namespace DaemonClient

/-- `DaemonClient::new`. -/
def new (address : String) : DaemonClient where
  connected := false
  address := address

/-- `DaemonClient::is_connected` (`self.client.is_some()`). -/
def is_connected (c : DaemonClient) : Bool := c.connected

/-- `DaemonClient::disconnect` (`self.client = None`). -/
def disconnect (c : DaemonClient) : DaemonClient :=
  { c with connected := false }

end DaemonClient

/-- The outcomes of the async RPCs that one dispatched event may perform,
supplied externally (the network side is outside the loop).  `Except` models
Rust `Result`, with errors collapsed to their display string (the only use
the program makes of them is `format!("...: {}", e)`).  `ts` stands for the
chrono wall-clock readings of the event's log appends. -/
structure Oracle where
  connectRes : Except String Unit
  statusRes : Except String StatusResponse
  metricsRes : Except String MetricsResponse
  controlRes : Except String ControlResponse
  ts : String

/-- The combined mutable state the dispatcher threads: `app: &mut App`,
`client: &mut DaemonClient`. -/
structure DState where
  app : App
  client : DaemonClient
  deriving DecidableEq, Repr

/-- `refresh_data` from `src/main.rs`: `get_status` then `get_metrics`
sequentially; each success updates its snapshot, each failure appends one
ERROR log entry. -/
def refresh_data (a : App) (statusRes : Except String StatusResponse)
    (metricsRes : Except String MetricsResponse) (ts : String) : App :=
  let a1 := match statusRes with
    | .ok status => a.update_status status
    | .error e => a.add_log ts "ERROR" ("Failed to get status: " ++ e)
  match metricsRes with
  | .ok metrics => a1.update_metrics metrics
  | .error e => a1.add_log ts "ERROR" ("Failed to get metrics: " ++ e)

/-- The first half of `connect_to_daemon` from `src/main.rs`, up to the
`client.connect().await` suspension point: set `Connecting`, log the
attempt. -/
def connect_begin (a : App) (ts : String) : App :=
  (a.set_connection_status .Connecting).add_log ts "INFO" "Connecting to daemon..."

/-- `connect_to_daemon` from `src/main.rs`.  `DaemonClient::connect` itself
either installs a session (`connected := true`) or leaves the client
unchanged, per `src/grpc/client.rs`. -/
def connect_to_daemon (s : DState) (o : Oracle) : DState :=
  if s.client.is_connected then
    { s with app := s.app.add_log o.ts "WARN" "Already connected" }
  else
    let a := connect_begin s.app o.ts
    match o.connectRes with
    | .ok _ =>
        let client := { s.client with connected := true }
        let a := (a.set_connection_status .Connected).add_log o.ts "INFO"
          "Connected successfully"
        { app := refresh_data a o.statusRes o.metricsRes o.ts, client := client }
    | .error e =>
        { s with
          app := (a.set_connection_status (.Error "Connection failed")).add_log
            o.ts "ERROR" ("Connection failed: " ++ e) }

/-- `disconnect_from_daemon` from `src/main.rs`. -/
def disconnect_from_daemon (s : DState) (ts : String) : DState :=
  if ¬s.client.is_connected then
    { s with app := s.app.add_log ts "WARN" "Not connected" }
  else
    { app :=
        ({ s.app.set_connection_status .Disconnected with
            daemon_status := none, daemon_metrics := none }).add_log ts "INFO"
          "Disconnected from daemon",
      client := s.client.disconnect }

/-- `execute_action` from `src/main.rs`. -/
def execute_action (s : DState) (o : Oracle) : DState :=
  if ¬s.client.is_connected then
    { s with app := s.app.add_log o.ts "WARN" "Not connected - press 'c' to connect" }
  else
    let action := s.app.current_action
    let a := s.app.add_log o.ts "INFO" ("Executing: " ++ action.label)
    match o.controlRes with
    | .ok response =>
        if response.success then
          { s with app := a.add_log o.ts "INFO" ("Success: " ++ response.message) }
        else
          { s with app := a.add_log o.ts "WARN" ("Failed: " ++ response.message) }
    | .error e =>
        { s with app := a.add_log o.ts "ERROR" ("Command failed: " ++ e) }

/-- The crossterm `KeyCode` constructors the dispatcher matches on; every
other constructor falls into the wildcard arm, collapsed to `Other`. -/
inductive KeyCode where
  | Char (c : Char)
  | Tab
  | BackTab
  | Up
  | Down
  | Enter
  | Other
  deriving DecidableEq, Repr

/-- The crossterm `KeyModifiers` bitset; the dispatcher only ever queries
`modifiers.contains(KeyModifiers::CONTROL)`. -/
structure KeyMods where
  control : Bool
  deriving DecidableEq, Repr

/-- `handle_key_event` from `src/main.rs`: the global-binding `match` (whose
arms `return` early) followed by the panel-scoped `match`; the `match`/guard
arm order is rendered as the same ordered chain of tests. -/
def handle_key_event (s : DState) (code : KeyCode) (modifiers : KeyMods)
    (o : Oracle) : DState :=
  if code = .Char 'q' ∨ code = .Char 'Q' then
    { s with app := s.app.quit }
  else if code = .Char 'c' ∧ modifiers.control then
    { s with app := s.app.quit }
  else if code = .Tab then
    { s with app := s.app.focus_next }
  else if code = .BackTab then
    { s with app := s.app.focus_prev }
  else if code = .Char 'c' ∨ code = .Char 'C' then
    connect_to_daemon s o
  else if code = .Char 'd' ∨ code = .Char 'D' then
    disconnect_from_daemon s o.ts
  else
    match s.app.focused_panel with
    | .Controls =>
        if code = .Up ∨ code = .Char 'k' then
          { s with app := s.app.select_prev_action }
        else if code = .Down ∨ code = .Char 'j' then
          { s with app := s.app.select_next_action }
        else if code = .Enter then
          execute_action s o
        else s
    | .Logs =>
        if code = .Up ∨ code = .Char 'k' then
          { s with app := s.app.scroll_logs_up }
        else if code = .Down ∨ code = .Char 'j' then
          { s with app := s.app.scroll_logs_down }
        else s
    | .Status => s

/-- The `Event::Tick` arm of `run_app`'s event match in `src/main.rs`:
refresh only `if client.is_connected()`. -/
def handle_tick (s : DState) (o : Oracle) : DState :=
  if s.client.is_connected then
    { s with app := refresh_data s.app o.statusRes o.metricsRes o.ts }
  else s

/-- Rust `format!("{:.1}", num as f64 / den as f64)` digits: the number of
tenths in `num / den`, rounded to nearest with ties to even (the rounding
`{:.1}` performs; no input considered here sits on a tie or within an ulp of
the f64 division of one). -/
def tenths (num den : Nat) : Nat :=
  let q := (10 * num) / den
  let r := (10 * num) % den
  if den < 2 * r then q + 1
  else if 2 * r < den then q
  else if q % 2 = 0 then q else q + 1

/-- `format!("{:.1}", num as f64 / den as f64)` as a string. -/
def fmtOneDec (num den : Nat) : String :=
  let t := tenths num den
  s!"{t / 10}.{t % 10}"

/-- `format_bytes` from `src/ui/dashboard.rs`. -/
def format_bytes (bytes : Nat) : String :=
  let kb := 1024
  let mb := kb * 1024
  let gb := mb * 1024
  if bytes ≥ gb then fmtOneDec bytes gb ++ "GB"
  else if bytes ≥ mb then fmtOneDec bytes mb ++ "MB"
  else if bytes ≥ kb then fmtOneDec bytes kb ++ "KB"
  else s!"{bytes}B"

/-- The memory-usage percentage computed by `render_metrics_panel`
(`src/ui/dashboard.rs` lines 158-162): guarded division, clamped to
`[0, 100]`; `f64` is modelled by `ℚ` (the guard and the zero branch are
exact in either arithmetic). -/
def mem_pct (metrics : MetricsResponse) : ℚ :=
  if metrics.memory_limit_bytes > 0 then
    min (max ((metrics.memory_bytes : ℚ) / (metrics.memory_limit_bytes : ℚ) * 100) 0) 100
  else 0

/-- The ratio handed to the memory `Gauge` (`.ratio(mem_pct / 100.0)`). -/
def mem_gauge_ratio (metrics : MetricsResponse) : ℚ :=
  mem_pct metrics / 100

section SpecSide

/-!
Spec-side rendering of the dispatch algorithm of spec §4.3, step 1, for
comparison against `handle_key_event`: which key events a global binding
claims, and the two dispatch halves as separate functions.
-/

/-- Spec-side: some global binding (quit-key `q`/`Q`, quit-modifier-combo
Ctrl+`c`, focus-next Tab, focus-prev BackTab, connect-key `c`/`C`,
disconnect-key `d`/`D`) matches the key event. -/
def globalMatch (code : KeyCode) (modifiers : KeyMods) : Prop :=
  code = .Char 'q' ∨ code = .Char 'Q' ∨ (code = .Char 'c' ∧ modifiers.control = true)
    ∨ code = .Tab ∨ code = .BackTab ∨ code = .Char 'c' ∨ code = .Char 'C'
    ∨ code = .Char 'd' ∨ code = .Char 'D'

instance globalMatch.instDecidable (code : KeyCode) (modifiers : KeyMods) :
    Decidable (globalMatch code modifiers) := by
  unfold globalMatch; exact inferInstance

/-- Spec-side: the effect of the first global binding that matches, tried in
the spec's fixed priority order (quit-key, quit-modifier-combo, focus-next,
focus-prev, connect-key, disconnect-key). -/
def global_step (s : DState) (code : KeyCode) (modifiers : KeyMods)
    (o : Oracle) : DState :=
  if code = .Char 'q' ∨ code = .Char 'Q' then { s with app := s.app.quit }
  else if code = .Char 'c' ∧ modifiers.control then { s with app := s.app.quit }
  else if code = .Tab then { s with app := s.app.focus_next }
  else if code = .BackTab then { s with app := s.app.focus_prev }
  else if code = .Char 'c' ∨ code = .Char 'C' then connect_to_daemon s o
  else if code = .Char 'd' ∨ code = .Char 'D' then disconnect_from_daemon s o.ts
  else s

/-- Spec-side: the panel-scoped dispatch (spec §4.3, step 2) on its own. -/
def panel_step (s : DState) (code : KeyCode) (o : Oracle) : DState :=
  match s.app.focused_panel with
  | .Controls =>
      if code = .Up ∨ code = .Char 'k' then
        { s with app := s.app.select_prev_action }
      else if code = .Down ∨ code = .Char 'j' then
        { s with app := s.app.select_next_action }
      else if code = .Enter then
        execute_action s o
      else s
  | .Logs =>
      if code = .Up ∨ code = .Char 'k' then
        { s with app := s.app.scroll_logs_up }
      else if code = .Down ∨ code = .Char 'j' then
        { s with app := s.app.scroll_logs_down }
      else s
  | .Status => s

end SpecSide

/-- A Controls-panel selection movement (the `Up`/`k` and `Down`/`j`
bindings). -/
inductive SelMove where
  | up
  | down
  deriving DecidableEq, Repr

/-- Apply one selection movement. -/
def applySelMove (a : App) : SelMove → App
  | .up => a.select_prev_action
  | .down => a.select_next_action

/-- Apply a sequence of selection movements, oldest first. -/
def applySelMoves (a : App) : List SelMove → App
  | [] => a
  | m :: ms => applySelMoves (applySelMove a m) ms

/-- A log-buffer operation: the Logs-panel scroll bindings and `add_log`. -/
inductive LogOp where
  | up
  | down
  | append (ts level message : String)
  deriving DecidableEq, Repr

/-- Apply one log-buffer operation. -/
def applyLogOp (a : App) : LogOp → App
  | .up => a.scroll_logs_up
  | .down => a.scroll_logs_down
  | .append ts level message => a.add_log ts level message

/-- Apply a sequence of log-buffer operations, oldest first. -/
def applyLogOps (a : App) : List LogOp → App
  | [] => a
  | op :: ops => applyLogOps (applyLogOp a op) ops

/-- The ERROR entry `refresh_data` appends when `get_status` fails (none on
success). -/
def status_error_log (o : Oracle) : List LogEntry :=
  match o.statusRes with
  | .ok _ => []
  | .error e => [⟨o.ts, "ERROR", "Failed to get status: " ++ e⟩]

/-- The ERROR entry `refresh_data` appends when `get_metrics` fails (none on
success). -/
def metrics_error_log (o : Oracle) : List LogEntry :=
  match o.metricsRes with
  | .ok _ => []
  | .error e => [⟨o.ts, "ERROR", "Failed to get metrics: " ++ e⟩]

/-- Whether an RPC result is `Ok`. -/
def rpcOk : Except String α → Bool
  | .ok _ => true
  | .error _ => false

/-- The key events that reach the `connect_to_daemon` arm of
`handle_key_event` (`c`/`C`, except Ctrl+`c` which the earlier quit-combo
arm claims). -/
def connectKey (code : KeyCode) (modifiers : KeyMods) : Prop :=
  (code = .Char 'c' ∧ modifiers.control = false) ∨ code = .Char 'C'

instance connectKey.instDecidable (code : KeyCode) (modifiers : KeyMods) :
    Decidable (connectKey code modifiers) := by
  unfold connectKey; exact inferInstance

/-- The key events that reach the `disconnect_from_daemon` arm of
`handle_key_event` (`d`/`D`). -/
def disconnectKey (code : KeyCode) : Prop :=
  code = .Char 'd' ∨ code = .Char 'D'

instance disconnectKey.instDecidable (code : KeyCode) :
    Decidable (disconnectKey code) := by
  unfold disconnectKey; exact inferInstance

/-- The dispatcher state augmented with the history bits the spec's snapshot
invariant speaks about: whether a successful status (resp. metrics) fetch
has occurred since the connection was last established.  The bits are ghost
instrumentation of the step functions; they never feed back into them. -/
structure GState where
  st : DState
  fetched_status : Bool
  fetched_metrics : Bool

/-- A `KeyInput` step with ghost history: the state moves by
`handle_key_event`; the history bits are set by a fresh successful connect's
initial refresh, extended by nothing else on key events, and reset by an
actual disconnect. -/
def gKey (g : GState) (code : KeyCode) (modifiers : KeyMods) (o : Oracle) :
    GState where
  st := handle_key_event g.st code modifiers o
  fetched_status :=
    if connectKey code modifiers then
      if g.st.client.is_connected then g.fetched_status
      else if rpcOk o.connectRes then rpcOk o.statusRes
      else g.fetched_status
    else if disconnectKey code then
      if g.st.client.is_connected then false else g.fetched_status
    else g.fetched_status
  fetched_metrics :=
    if connectKey code modifiers then
      if g.st.client.is_connected then g.fetched_metrics
      else if rpcOk o.connectRes then rpcOk o.metricsRes
      else g.fetched_metrics
    else if disconnectKey code then
      if g.st.client.is_connected then false else g.fetched_metrics
    else g.fetched_metrics

/-- A `Tick` step with ghost history: a refresh while connected records any
successful fetch. -/
def gTick (g : GState) (o : Oracle) : GState where
  st := handle_tick g.st o
  fetched_status :=
    if g.st.client.is_connected then g.fetched_status || rpcOk o.statusRes
    else g.fetched_status
  fetched_metrics :=
    if g.st.client.is_connected then g.fetched_metrics || rpcOk o.metricsRes
    else g.fetched_metrics

/-- The startup state of `main`: `App::new` and `DaemonClient::new` on the
same address, no fetch history. -/
def gInit (address : String) : GState where
  st := { app := App.new address, client := DaemonClient.new address }
  fetched_status := false
  fetched_metrics := false

/-- States reachable from startup through dispatched key events and ticks
(each with an arbitrary oracle). -/
inductive Reachable (address : String) : GState → Prop where
  | init : Reachable address (gInit address)
  | key (g : GState) (code : KeyCode) (modifiers : KeyMods) (o : Oracle) :
      Reachable address g → Reachable address (gKey g code modifiers o)
  | tick (g : GState) (o : Oracle) :
      Reachable address g → Reachable address (gTick g o)

/-- The inductive invariant tying client session, displayed connection
status, fetch history and snapshots together. -/
def Inv (g : GState) : Prop :=
  (g.st.client.connected = true ↔ g.st.app.connection_status = .Connected)
    ∧ (g.fetched_status = true → g.st.client.connected = true)
    ∧ (g.fetched_metrics = true → g.st.client.connected = true)
    ∧ g.st.app.daemon_status.isSome = g.fetched_status
    ∧ g.st.app.daemon_metrics.isSome = g.fetched_metrics

/-! ### Frame lemmas for the `App` operations -/

namespace App

@[simp] theorem add_log_logs (a : App) (ts l m : String) :
    (a.add_log ts l m).logs = a.logs ++ [LogEntry.mk ts l m] := rfl

@[simp] theorem add_log_log_scroll (a : App) (ts l m : String) :
    (a.add_log ts l m).log_scroll = (a.logs ++ [LogEntry.mk ts l m]).length - 1 := rfl

@[simp] theorem add_log_connection_status (a : App) (ts l m : String) :
    (a.add_log ts l m).connection_status = a.connection_status := rfl

@[simp] theorem add_log_daemon_status (a : App) (ts l m : String) :
    (a.add_log ts l m).daemon_status = a.daemon_status := rfl

@[simp] theorem add_log_daemon_metrics (a : App) (ts l m : String) :
    (a.add_log ts l m).daemon_metrics = a.daemon_metrics := rfl

@[simp] theorem add_log_focused_panel (a : App) (ts l m : String) :
    (a.add_log ts l m).focused_panel = a.focused_panel := rfl

@[simp] theorem add_log_selected_action (a : App) (ts l m : String) :
    (a.add_log ts l m).selected_action = a.selected_action := rfl

@[simp] theorem add_log_should_quit (a : App) (ts l m : String) :
    (a.add_log ts l m).should_quit = a.should_quit := rfl

@[simp] theorem add_log_daemon_address (a : App) (ts l m : String) :
    (a.add_log ts l m).daemon_address = a.daemon_address := rfl

@[simp] theorem add_log_status_message (a : App) (ts l m : String) :
    (a.add_log ts l m).status_message = a.status_message := rfl

@[simp] theorem update_status_daemon_status (a : App) (st : StatusResponse) :
    (a.update_status st).daemon_status = some st := rfl

@[simp] theorem update_status_daemon_metrics (a : App) (st : StatusResponse) :
    (a.update_status st).daemon_metrics = a.daemon_metrics := rfl

@[simp] theorem update_status_connection_status (a : App) (st : StatusResponse) :
    (a.update_status st).connection_status = a.connection_status := rfl

@[simp] theorem update_status_logs (a : App) (st : StatusResponse) :
    (a.update_status st).logs = a.logs := rfl

@[simp] theorem update_metrics_daemon_metrics (a : App) (m : MetricsResponse) :
    (a.update_metrics m).daemon_metrics = some m := rfl

@[simp] theorem update_metrics_daemon_status (a : App) (m : MetricsResponse) :
    (a.update_metrics m).daemon_status = a.daemon_status := rfl

@[simp] theorem update_metrics_connection_status (a : App) (m : MetricsResponse) :
    (a.update_metrics m).connection_status = a.connection_status := rfl

@[simp] theorem update_metrics_logs (a : App) (m : MetricsResponse) :
    (a.update_metrics m).logs = a.logs := rfl

@[simp] theorem set_connection_status_connection_status (a : App)
    (c : ConnectionStatus) :
    (a.set_connection_status c).connection_status = c := rfl

@[simp] theorem set_connection_status_daemon_status (a : App)
    (c : ConnectionStatus) :
    (a.set_connection_status c).daemon_status = a.daemon_status := rfl

@[simp] theorem set_connection_status_daemon_metrics (a : App)
    (c : ConnectionStatus) :
    (a.set_connection_status c).daemon_metrics = a.daemon_metrics := rfl

@[simp] theorem set_connection_status_logs (a : App) (c : ConnectionStatus) :
    (a.set_connection_status c).logs = a.logs := rfl

@[simp] theorem quit_connection_status (a : App) :
    a.quit.connection_status = a.connection_status := rfl

@[simp] theorem quit_daemon_status (a : App) :
    a.quit.daemon_status = a.daemon_status := rfl

@[simp] theorem quit_daemon_metrics (a : App) :
    a.quit.daemon_metrics = a.daemon_metrics := rfl

@[simp] theorem focus_next_connection_status (a : App) :
    a.focus_next.connection_status = a.connection_status := rfl

@[simp] theorem focus_next_daemon_status (a : App) :
    a.focus_next.daemon_status = a.daemon_status := rfl

@[simp] theorem focus_next_daemon_metrics (a : App) :
    a.focus_next.daemon_metrics = a.daemon_metrics := rfl

@[simp] theorem focus_prev_connection_status (a : App) :
    a.focus_prev.connection_status = a.connection_status := rfl

@[simp] theorem focus_prev_daemon_status (a : App) :
    a.focus_prev.daemon_status = a.daemon_status := rfl

@[simp] theorem focus_prev_daemon_metrics (a : App) :
    a.focus_prev.daemon_metrics = a.daemon_metrics := rfl

@[simp] theorem select_next_action_connection_status (a : App) :
    a.select_next_action.connection_status = a.connection_status := by
  unfold select_next_action; split <;> rfl

@[simp] theorem select_next_action_daemon_status (a : App) :
    a.select_next_action.daemon_status = a.daemon_status := by
  unfold select_next_action; split <;> rfl

@[simp] theorem select_next_action_daemon_metrics (a : App) :
    a.select_next_action.daemon_metrics = a.daemon_metrics := by
  unfold select_next_action; split <;> rfl

@[simp] theorem select_prev_action_connection_status (a : App) :
    a.select_prev_action.connection_status = a.connection_status := by
  unfold select_prev_action; split <;> rfl

@[simp] theorem select_prev_action_daemon_status (a : App) :
    a.select_prev_action.daemon_status = a.daemon_status := by
  unfold select_prev_action; split <;> rfl

@[simp] theorem select_prev_action_daemon_metrics (a : App) :
    a.select_prev_action.daemon_metrics = a.daemon_metrics := by
  unfold select_prev_action; split <;> rfl

@[simp] theorem scroll_logs_up_connection_status (a : App) :
    a.scroll_logs_up.connection_status = a.connection_status := by
  unfold scroll_logs_up; split <;> rfl

@[simp] theorem scroll_logs_up_daemon_status (a : App) :
    a.scroll_logs_up.daemon_status = a.daemon_status := by
  unfold scroll_logs_up; split <;> rfl

@[simp] theorem scroll_logs_up_daemon_metrics (a : App) :
    a.scroll_logs_up.daemon_metrics = a.daemon_metrics := by
  unfold scroll_logs_up; split <;> rfl

@[simp] theorem scroll_logs_up_logs (a : App) :
    a.scroll_logs_up.logs = a.logs := by
  unfold scroll_logs_up; split <;> rfl

@[simp] theorem scroll_logs_down_connection_status (a : App) :
    a.scroll_logs_down.connection_status = a.connection_status := by
  unfold scroll_logs_down; split <;> rfl

@[simp] theorem scroll_logs_down_daemon_status (a : App) :
    a.scroll_logs_down.daemon_status = a.daemon_status := by
  unfold scroll_logs_down; split <;> rfl

@[simp] theorem scroll_logs_down_daemon_metrics (a : App) :
    a.scroll_logs_down.daemon_metrics = a.daemon_metrics := by
  unfold scroll_logs_down; split <;> rfl

@[simp] theorem scroll_logs_down_logs (a : App) :
    a.scroll_logs_down.logs = a.logs := by
  unfold scroll_logs_down; split <;> rfl

end App

/-! ### C6: focus navigation is a 3-cycle with `prev` inverse to `next` -/

/-- C6: for every `FocusedPanel` value, applying `next` exactly 3 times
returns the panel to its starting value (a cyclic group of order 3), and
`prev` is the exact two-sided inverse of `next`. -/
theorem focus_next_cycle_prev_inverse (p : FocusedPanel) :
    p.next.next.next = p ∧ p.next.prev = p ∧ p.prev.next = p := by
  cases p <;> exact ⟨rfl, rfl, rfl⟩

/-! ### C7: the Controls selection index stays in `[0, 3]` -/

theorem select_prev_action_le (a : App) (h : a.selected_action ≤ 3) :
    a.select_prev_action.selected_action ≤ 3 := by
  unfold App.select_prev_action
  split
  · exact Nat.le_trans (Nat.sub_le _ _) h
  · exact h

theorem select_next_action_le (a : App) (h : a.selected_action ≤ 3) :
    a.select_next_action.selected_action ≤ 3 := by
  unfold App.select_next_action
  split
  · next hlt => exact hlt
  · exact h

theorem applySelMove_le (a : App) (m : SelMove)
    (h : a.selected_action ≤ 3) :
    (applySelMove a m).selected_action ≤ 3 := by
  cases m with
  | up => exact select_prev_action_le a h
  | down => exact select_next_action_le a h

theorem applySelMoves_le (a : App) (ms : List SelMove)
    (h : a.selected_action ≤ 3) :
    (applySelMoves a ms).selected_action ≤ 3 := by
  induction ms generalizing a with
  | nil => exact h
  | cons m ms ih => exact ih _ (applySelMove_le a m h)

/-- C7: under any sequence of up/down selection movements the Controls
selection index never leaves `[0, 3]` (it is a `Nat`, so `0 ≤ i` is
inherent), and the moves are clamped with no wraparound: an up-move at
index 0 and a down-move at index 3 leave the state unchanged. -/
theorem selected_action_in_range (a : App) (ms : List SelMove)
    (h : a.selected_action ≤ 3) :
    (applySelMoves a ms).selected_action ≤ 3
      ∧ (a.selected_action = 0 → a.select_prev_action = a)
      ∧ (a.selected_action = 3 → a.select_next_action = a) := by
  refine ⟨applySelMoves_le a ms h, fun h0 => ?_, fun h3 => ?_⟩
  · simp [App.select_prev_action, h0]
  · simp [App.select_next_action, h3, ControlAction.ALL]

/-- Witness for C7: five movements from the fresh state (four downs hit the
clamp at 3). -/
theorem selected_action_in_range_witness :
    (applySelMoves (App.new "a")
        [SelMove.down, SelMove.down, SelMove.down, SelMove.down,
          SelMove.up]).selected_action ≤ 3
      ∧ (App.new "a").select_prev_action = App.new "a" := by
  have h := selected_action_in_range (App.new "a")
    [SelMove.down, SelMove.down, SelMove.down, SelMove.down, SelMove.up]
    (by decide)
  exact ⟨h.1, h.2.1 rfl⟩

/-! ### C8: the log scroll offset stays in range and auto-scrolls on append -/

theorem scroll_logs_up_le (a : App) (h : a.log_scroll ≤ a.logs.length - 1) :
    a.scroll_logs_up.log_scroll ≤ a.scroll_logs_up.logs.length - 1 := by
  unfold App.scroll_logs_up
  split
  · exact Nat.le_trans (Nat.sub_le _ _) h
  · exact h

theorem scroll_logs_down_le (a : App) (h : a.log_scroll ≤ a.logs.length - 1) :
    a.scroll_logs_down.log_scroll ≤ a.scroll_logs_down.logs.length - 1 := by
  unfold App.scroll_logs_down
  split
  · next hlt => exact hlt
  · exact h

theorem applyLogOp_le (a : App) (op : LogOp)
    (h : a.log_scroll ≤ a.logs.length - 1) :
    (applyLogOp a op).log_scroll ≤ (applyLogOp a op).logs.length - 1 := by
  cases op with
  | up => exact scroll_logs_up_le a h
  | down => exact scroll_logs_down_le a h
  | append ts level message => exact Nat.le_refl _

theorem applyLogOps_le (a : App) (ops : List LogOp)
    (h : a.log_scroll ≤ a.logs.length - 1) :
    (applyLogOps a ops).log_scroll ≤ (applyLogOps a ops).logs.length - 1 := by
  induction ops generalizing a with
  | nil => exact h
  | cons op ops ih => exact ih _ (applyLogOp_le a op h)

/-- C8: under any sequence of scroll-up/scroll-down/append operations the
log scroll offset stays within `[0, len(logs) - 1]` (in particular it is 0
while the log is empty), and immediately after every `add_log` it equals
`len(logs) - 1` (auto-scroll to the newest entry). -/
theorem log_scroll_in_range (a : App) (ops : List LogOp)
    (h : a.log_scroll ≤ a.logs.length - 1) :
    ((applyLogOps a ops).log_scroll ≤ (applyLogOps a ops).logs.length - 1
        ∧ ((applyLogOps a ops).logs = [] → (applyLogOps a ops).log_scroll = 0))
      ∧ ∀ ts level message,
          (a.add_log ts level message).log_scroll
            = (a.add_log ts level message).logs.length - 1 := by
  refine ⟨⟨applyLogOps_le a ops h, fun hnil => ?_⟩, fun ts level message => ?_⟩
  · have := applyLogOps_le a ops h
    rw [hnil] at this
    simpa using this
  · simp

/-- Witness for C8: an append then two scrolls from the fresh state. -/
theorem log_scroll_in_range_witness :
    ((applyLogOps (App.new "a")
          [LogOp.append "t0" "INFO" "m0", LogOp.down, LogOp.up]).log_scroll
        ≤ (applyLogOps (App.new "a")
            [LogOp.append "t0" "INFO" "m0", LogOp.down, LogOp.up]).logs.length - 1)
      ∧ ((App.new "a").add_log "t1" "WARN" "m1").log_scroll
          = ((App.new "a").add_log "t1" "WARN" "m1").logs.length - 1 := by
  have h := log_scroll_in_range (App.new "a")
    [LogOp.append "t0" "INFO" "m0", LogOp.down, LogOp.up] (by decide)
  exact ⟨h.1.1, h.2 "t1" "WARN" "m1"⟩

/-! ### C10: the memory gauge never divides by zero -/

/-- C10: for every metrics snapshot with `memory_limit_bytes = 0`, the
memory-usage percentage of the metrics panel is defined and equals 0 (the
division is guarded by the positivity check), and so is the gauge ratio. -/
theorem mem_pct_zero_limit (metrics : MetricsResponse)
    (h : metrics.memory_limit_bytes = 0) :
    mem_pct metrics = 0 ∧ mem_gauge_ratio metrics = 0 := by
  constructor
  · simp [mem_pct, h]
  · simp [mem_gauge_ratio, mem_pct, h]

/-- Witness for C10 at a concrete snapshot with a zero memory limit. -/
theorem mem_pct_zero_limit_witness :
    mem_pct (MetricsResponse.mk (573 / 10) 1500000000 0 3 10 1) = 0
      ∧ mem_gauge_ratio (MetricsResponse.mk (573 / 10) 1500000000 0 3 10 1) = 0 :=
  mem_pct_zero_limit (MetricsResponse.mk (573 / 10) 1500000000 0 3 10 1) rfl

/-! ### C9: byte-formatting thresholds and the 1.5 GB scenario -/

/-- C9: `format_bytes` selects its unit at the binary thresholds 1024,
1024² and 1024³ bytes (suffixes B/KB/MB/GB), printing one decimal place of
the quotient above 1024, and in particular maps `1_500_000_000` to
`"1.4GB"`. -/
theorem format_bytes_thresholds :
    (∀ b, 1024 ^ 3 ≤ b → format_bytes b = fmtOneDec b (1024 ^ 3) ++ "GB")
      ∧ (∀ b, 1024 ^ 2 ≤ b → b < 1024 ^ 3 →
          format_bytes b = fmtOneDec b (1024 ^ 2) ++ "MB")
      ∧ (∀ b, 1024 ≤ b → b < 1024 ^ 2 →
          format_bytes b = fmtOneDec b 1024 ++ "KB")
      ∧ (∀ b, b < 1024 → format_bytes b = toString b ++ "B")
      ∧ format_bytes 1500000000 = "1.4GB" := by
  refine ⟨?_, ?_, ?_, ?_, by decide⟩
  · intro b hb
    norm_num at hb
    simp [format_bytes, hb]
  · intro b hb hb'
    norm_num at hb hb'
    simp [format_bytes, hb, hb', Nat.not_le_of_lt hb']
  · intro b hb hb'
    norm_num at hb hb'
    have h3 : ¬(1024 * 1024 * 1024 ≤ b) := by omega
    simp [format_bytes, hb, Nat.not_le_of_lt hb', h3]
  · intro b hb
    have h1 : ¬(1024 ≤ b) := by omega
    have h2 : ¬(1024 * 1024 ≤ b) := by omega
    have h3 : ¬(1024 * 1024 * 1024 ≤ b) := by omega
    simp [format_bytes, h1, h2, h3]
    rfl

/-- Witness for C9: the GB threshold conjunct applied at the scenario
input. -/
theorem format_bytes_thresholds_witness :
    (1024 : ℕ) ^ 3 ≤ 1500000000
      ∧ format_bytes 1500000000 = fmtOneDec 1500000000 (1024 ^ 3) ++ "GB" :=
  ⟨by norm_num, format_bytes_thresholds.1 1500000000 (by norm_num)⟩

/-! ### C1: global bindings take priority and exclude panel dispatch -/

/-- C1: for every key event, `handle_key_event` equals the ordered
global-binding dispatch (quit-key, quit-modifier-combo, focus-next,
focus-prev, connect-key, disconnect-key, in that priority) whenever any
global binding matches, and equals the panel-scoped dispatch otherwise —
so a matched global binding excludes every panel-scoped binding for that
event. -/
theorem handle_key_event_global_first (s : DState) (code : KeyCode)
    (modifiers : KeyMods) (o : Oracle) :
    handle_key_event s code modifiers o
      = if globalMatch code modifiers then global_step s code modifiers o
        else panel_step s code o := by
  cases code with
  | Char c =>
      by_cases hq : c = 'q'
      · subst hq; simp [handle_key_event, global_step, globalMatch]
      by_cases hQ : c = 'Q'
      · subst hQ; simp [handle_key_event, global_step, globalMatch, hq]
      by_cases hc : c = 'c'
      · subst hc
        by_cases hctrl : modifiers.control = true <;>
          simp [handle_key_event, global_step, globalMatch, hctrl]
      by_cases hC : c = 'C'
      · subst hC; simp [handle_key_event, global_step, globalMatch, hq, hQ, hc]
      by_cases hd : c = 'd'
      · subst hd; simp [handle_key_event, global_step, globalMatch, hq, hQ, hc, hC]
      by_cases hD : c = 'D'
      · subst hD
        simp [handle_key_event, global_step, globalMatch, hq, hQ, hc, hC, hd]
      simp [handle_key_event, global_step, panel_step, globalMatch,
        hq, hQ, hc, hC, hd, hD]
  | Tab => simp [handle_key_event, global_step, globalMatch]
  | BackTab => simp [handle_key_event, global_step, globalMatch]
  | Up => simp [handle_key_event, panel_step, globalMatch]
  | Down => simp [handle_key_event, panel_step, globalMatch]
  | Enter => simp [handle_key_event, panel_step, globalMatch]
  | Other => simp [handle_key_event, panel_step, globalMatch]

/-! ### C2: tick-driven refresh semantics -/

/-- C2: a `Tick` refreshes only while `is_connected()`; the refresh fetches
status then metrics sequentially, each success replacing its snapshot, each
failure retaining the previous snapshot and appending exactly one ERROR
entry (the status one first), and the connection status is never touched. -/
theorem handle_tick_refresh (s : DState) (o : Oracle) :
    (s.client.is_connected = false → handle_tick s o = s)
      ∧ (s.client.is_connected = true →
          (handle_tick s o).client = s.client
            ∧ (handle_tick s o).app.connection_status = s.app.connection_status
            ∧ (handle_tick s o).app.daemon_status
                = (match o.statusRes with
                    | .ok st => some st
                    | .error _ => s.app.daemon_status)
            ∧ (handle_tick s o).app.daemon_metrics
                = (match o.metricsRes with
                    | .ok m => some m
                    | .error _ => s.app.daemon_metrics)
            ∧ (handle_tick s o).app.logs
                = s.app.logs ++ status_error_log o ++ metrics_error_log o) := by
  constructor
  · intro h
    simp [handle_tick, h]
  · intro h
    unfold handle_tick refresh_data
    rcases hs : o.statusRes with e | st <;> rcases hm : o.metricsRes with e2 | m2 <;>
      simp [h, hs, hm, status_error_log, metrics_error_log]

/-- Witness for C2: a connected state with a failing `get_status` and a
successful `get_metrics`. -/
theorem handle_tick_refresh_witness :
    (handle_tick
        ⟨App.new "a", ⟨true, "a"⟩⟩
        ⟨Except.ok (), Except.error "boom", Except.ok (MetricsResponse.mk 0 1 2 3 4 5),
          Except.ok (ControlResponse.mk true "ok"), "t"⟩).app.daemon_metrics
      = some (MetricsResponse.mk 0 1 2 3 4 5) := by
  have h := handle_tick_refresh
    ⟨App.new "a", ⟨true, "a"⟩⟩
    ⟨Except.ok (), Except.error "boom", Except.ok (MetricsResponse.mk 0 1 2 3 4 5),
      Except.ok (ControlResponse.mk true "ok"), "t"⟩
  exact (h.2 rfl).2.2.2.1

/-! ### C3: helper lemmas about refresh and the inductive invariant -/

@[simp] theorem refresh_data_connection_status (a : App)
    (sr : Except String StatusResponse) (mr : Except String MetricsResponse)
    (ts : String) :
    (refresh_data a sr mr ts).connection_status = a.connection_status := by
  unfold refresh_data
  rcases sr with e | st <;> rcases mr with e2 | m <;> simp

@[simp] theorem refresh_data_isSome_status (a : App)
    (sr : Except String StatusResponse) (mr : Except String MetricsResponse)
    (ts : String) :
    (refresh_data a sr mr ts).daemon_status.isSome
      = (a.daemon_status.isSome || rpcOk sr) := by
  unfold refresh_data
  rcases sr with e | st <;> rcases mr with e2 | m <;> simp [rpcOk]

@[simp] theorem refresh_data_isSome_metrics (a : App)
    (sr : Except String StatusResponse) (mr : Except String MetricsResponse)
    (ts : String) :
    (refresh_data a sr mr ts).daemon_metrics.isSome
      = (a.daemon_metrics.isSome || rpcOk mr) := by
  unfold refresh_data
  rcases sr with e | st <;> rcases mr with e2 | m <;> simp [rpcOk]

theorem inv_frame (s : DState) (a' : App) (fs fm : Bool)
    (hg : Inv ⟨s, fs, fm⟩)
    (hcs : a'.connection_status = s.app.connection_status)
    (hds : a'.daemon_status = s.app.daemon_status)
    (hdm : a'.daemon_metrics = s.app.daemon_metrics) :
    Inv ⟨⟨a', s.client⟩, fs, fm⟩ := by
  unfold Inv at hg ⊢
  obtain ⟨h1, h2, h3, h4, h5⟩ := hg
  simp only [hcs, hds, hdm]
  exact ⟨h1, h2, h3, h4, h5⟩

theorem inv_execute (s : DState) (o : Oracle) (fs fm : Bool)
    (hg : Inv ⟨s, fs, fm⟩) : Inv ⟨execute_action s o, fs, fm⟩ := by
  unfold execute_action
  split
  · exact inv_frame s _ fs fm hg (by simp) (by simp) (by simp)
  · rcases hr : o.controlRes with e | r
    · exact inv_frame s _ fs fm hg (by simp) (by simp) (by simp)
    · dsimp only
      split
      · exact inv_frame s _ fs fm hg (by simp) (by simp) (by simp)
      · exact inv_frame s _ fs fm hg (by simp) (by simp) (by simp)

theorem inv_panel (s : DState) (code : KeyCode) (o : Oracle) (fs fm : Bool)
    (hg : Inv ⟨s, fs, fm⟩) : Inv ⟨panel_step s code o, fs, fm⟩ := by
  unfold panel_step
  cases hfp : s.app.focused_panel with
  | Controls =>
      dsimp only
      split_ifs
      · exact inv_frame s _ fs fm hg (by simp) (by simp) (by simp)
      · exact inv_frame s _ fs fm hg (by simp) (by simp) (by simp)
      · exact inv_execute s o fs fm hg
      · exact hg
  | Logs =>
      dsimp only
      split_ifs
      · exact inv_frame s _ fs fm hg (by simp) (by simp) (by simp)
      · exact inv_frame s _ fs fm hg (by simp) (by simp) (by simp)
      · exact hg
  | Status => exact hg

theorem inv_connect (s : DState) (o : Oracle) (fs fm : Bool)
    (hg : Inv ⟨s, fs, fm⟩) :
    Inv ⟨connect_to_daemon s o,
      if s.client.is_connected then fs
      else if rpcOk o.connectRes then rpcOk o.statusRes else fs,
      if s.client.is_connected then fm
      else if rpcOk o.connectRes then rpcOk o.metricsRes else fm⟩ := by
  obtain ⟨h1, h2, h3, h4, h5⟩ := hg
  by_cases hc : s.client.is_connected
  · rw [if_pos hc, if_pos hc]
    unfold connect_to_daemon
    rw [if_pos hc]
    exact inv_frame s _ fs fm ⟨h1, h2, h3, h4, h5⟩ (by simp) (by simp) (by simp)
  · have hcc : s.client.connected = false := by
      revert hc; unfold DaemonClient.is_connected
      cases s.client.connected <;> simp
    have hfs : fs = false := by
      cases hfsv : fs
      · rfl
      · exact absurd (h2 hfsv) (by simp [hcc])
    have hfm : fm = false := by
      cases hfmv : fm
      · rfl
      · exact absurd (h3 hfmv) (by simp [hcc])
    rw [if_neg hc, if_neg hc]
    unfold connect_to_daemon
    rw [if_neg hc]
    rcases hcr : o.connectRes with e | u
    · unfold Inv
      simp [connect_begin, rpcOk, hcc, hfs, hfm, h4, h5]
    · unfold Inv
      simp [connect_begin, rpcOk, h4, h5, hfs, hfm]

theorem inv_disconnect (s : DState) (ts : String) (fs fm : Bool)
    (hg : Inv ⟨s, fs, fm⟩) :
    Inv ⟨disconnect_from_daemon s ts,
      if s.client.is_connected then false else fs,
      if s.client.is_connected then false else fm⟩ := by
  obtain ⟨h1, h2, h3, h4, h5⟩ := hg
  by_cases hc : s.client.is_connected
  · rw [if_pos hc, if_pos hc]
    unfold disconnect_from_daemon
    rw [if_neg (by simpa using hc)]
    unfold Inv
    simp [DaemonClient.disconnect]
  · rw [if_neg hc, if_neg hc]
    unfold disconnect_from_daemon
    rw [if_pos (by simpa using hc)]
    exact inv_frame s _ fs fm ⟨h1, h2, h3, h4, h5⟩ (by simp) (by simp) (by simp)

theorem inv_tick (s : DState) (o : Oracle) (fs fm : Bool)
    (hg : Inv ⟨s, fs, fm⟩) :
    Inv ⟨handle_tick s o,
      if s.client.is_connected then fs || rpcOk o.statusRes else fs,
      if s.client.is_connected then fm || rpcOk o.metricsRes else fm⟩ := by
  unfold Inv at hg
  obtain ⟨h1, h2, h3, h4, h5⟩ := hg
  by_cases hc : s.client.is_connected
  · have hcc : s.client.connected = true := hc
    rw [if_pos hc, if_pos hc]
    unfold handle_tick
    rw [if_pos hc]
    unfold Inv
    dsimp only at h1 h4 h5
    simp [hcc, h4, h5, h1.mp hcc]
  · rw [if_neg hc, if_neg hc]
    unfold handle_tick
    rw [if_neg hc]
    exact ⟨h1, h2, h3, h4, h5⟩

theorem inv_gKey (g : GState) (code : KeyCode) (modifiers : KeyMods)
    (o : Oracle) (hg : Inv g) : Inv (gKey g code modifiers o) := by
  obtain ⟨s, fs, fm⟩ := g
  obtain ⟨ctrl⟩ := modifiers
  cases code with
  | Char ch =>
      by_cases hq : ch = 'q'
      · subst hq
        exact inv_frame s _ fs fm hg (by simp) (by simp) (by simp)
      by_cases hQ : ch = 'Q'
      · subst hQ
        exact inv_frame s _ fs fm hg (by simp) (by simp) (by simp)
      by_cases hc : ch = 'c'
      · subst hc
        cases ctrl
        · exact inv_connect s o fs fm hg
        · exact inv_frame s _ fs fm hg (by simp) (by simp) (by simp)
      by_cases hC : ch = 'C'
      · subst hC
        exact inv_connect s o fs fm hg
      by_cases hd : ch = 'd'
      · subst hd
        exact inv_disconnect s o.ts fs fm hg
      by_cases hD : ch = 'D'
      · subst hD
        exact inv_disconnect s o.ts fs fm hg
      · have hcK : ¬connectKey (.Char ch) ⟨ctrl⟩ := by
          simp [connectKey, hc, hC]
        have hdK : ¬disconnectKey (.Char ch) := by
          simp [disconnectKey, hd, hD]
        have hstep : handle_key_event s (.Char ch) ⟨ctrl⟩ o
            = panel_step s (.Char ch) o := by
          cases hfp : s.app.focused_panel <;>
            simp [handle_key_event, panel_step, hq, hQ, hc, hC, hd, hD, hfp]
        have he : gKey ⟨s, fs, fm⟩ (.Char ch) ⟨ctrl⟩ o
            = ⟨panel_step s (.Char ch) o, fs, fm⟩ := by
          simp [gKey, hstep, hcK, hdK]
        rw [he]
        exact inv_panel s _ o fs fm hg
  | Tab => exact inv_frame s _ fs fm hg (by simp) (by simp) (by simp)
  | BackTab => exact inv_frame s _ fs fm hg (by simp) (by simp) (by simp)
  | Up => exact inv_panel s _ o fs fm hg
  | Down => exact inv_panel s _ o fs fm hg
  | Enter => exact inv_panel s _ o fs fm hg
  | Other => exact inv_panel s _ o fs fm hg

theorem inv_gTick (g : GState) (o : Oracle) (hg : Inv g) :
    Inv (gTick g o) := by
  obtain ⟨s, fs, fm⟩ := g
  exact inv_tick s o fs fm hg

theorem reachable_inv (address : String) (g : GState)
    (h : Reachable address g) : Inv g := by
  induction h with
  | init => unfold Inv gInit App.new DaemonClient.new; simp
  | key g code modifiers o _ ih => exact inv_gKey g code modifiers o ih
  | tick g o _ ih => exact inv_gTick g o ih

/-- C3: in every state reachable through the dispatched operations, a
snapshot is `none` iff the connection is not `Connected` or no successful
fetch of it has occurred since connecting (the ghost history bit); in
particular no snapshot is ever `some` while the status is `Disconnected`,
`Connecting`, or `Error`. -/
theorem snapshots_none_iff (address : String) (g : GState)
    (h : Reachable address g) :
    (g.st.app.daemon_status = none
        ↔ ¬(g.st.app.connection_status = .Connected ∧ g.fetched_status = true))
      ∧ (g.st.app.daemon_metrics = none
        ↔ ¬(g.st.app.connection_status = .Connected ∧ g.fetched_metrics = true))
      ∧ (g.st.app.connection_status ≠ .Connected →
          g.st.app.daemon_status = none ∧ g.st.app.daemon_metrics = none) := by
  have hinv := reachable_inv address g h
  unfold Inv at hinv
  obtain ⟨h1, h2, h3, h4, h5⟩ := hinv
  have hs : g.st.app.daemon_status = none ↔ g.fetched_status = false := by
    rw [← Option.not_isSome_iff_eq_none, h4]
    cases g.fetched_status <;> simp
  have hm : g.st.app.daemon_metrics = none ↔ g.fetched_metrics = false := by
    rw [← Option.not_isSome_iff_eq_none, h5]
    cases g.fetched_metrics <;> simp
  refine ⟨?_, ?_, ?_⟩
  · rw [hs]
    constructor
    · rintro hf ⟨_, hft⟩
      rw [hf] at hft
      cases hft
    · intro hn
      cases hfsv : g.fetched_status
      · rfl
      · exact absurd ⟨h1.mp (h2 hfsv), hfsv⟩ hn
  · rw [hm]
    constructor
    · rintro hf ⟨_, hft⟩
      rw [hf] at hft
      cases hft
    · intro hn
      cases hfmv : g.fetched_metrics
      · rfl
      · exact absurd ⟨h1.mp (h3 hfmv), hfmv⟩ hn
  · intro hne
    have hfs : g.fetched_status = false := by
      cases hfsv : g.fetched_status
      · rfl
      · exact absurd (h1.mp (h2 hfsv)) hne
    have hfm : g.fetched_metrics = false := by
      cases hfmv : g.fetched_metrics
      · rfl
      · exact absurd (h1.mp (h3 hfmv)) hne
    exact ⟨hs.mpr hfs, hm.mpr hfm⟩

/-- Witness for C3: the initial state is reachable and its status is not
`Connected`, so the theorem yields both snapshots `none` there. -/
theorem snapshots_none_iff_witness :
    (gInit "a").st.app.daemon_status = none
      ∧ (gInit "a").st.app.daemon_metrics = none := by
  have h := snapshots_none_iff "a" (gInit "a") Reachable.init
  exact h.2.2 (by decide)

/-! ### C4: failed connect scenario from the fresh state -/

/-- C4: starting from the fresh state with both snapshots `none`, pressing
the connect-key while the daemon is unreachable first sets the status to
`Connecting` (the state `connect_to_daemon` shows before the connect
attempt resolves) and then to `Error "Connection failed"`; exactly one
ERROR-level log entry is appended by the failure, both snapshots remain
`none`, and the client still holds no session. -/
theorem connect_failure_scenario (address e ts : String)
    (sr : Except String StatusResponse) (mr : Except String MetricsResponse)
    (cr : Except String ControlResponse) :
    (connect_begin (App.new address) ts).connection_status = .Connecting
      ∧ (handle_key_event ⟨App.new address, DaemonClient.new address⟩
            (.Char 'c') ⟨false⟩ ⟨.error e, sr, mr, cr, ts⟩).app.connection_status
          = .Error "Connection failed"
      ∧ ((handle_key_event ⟨App.new address, DaemonClient.new address⟩
            (.Char 'c') ⟨false⟩ ⟨.error e, sr, mr, cr, ts⟩).app.logs.filter
            (fun l => l.level = "ERROR")).length = 1
      ∧ (handle_key_event ⟨App.new address, DaemonClient.new address⟩
            (.Char 'c') ⟨false⟩ ⟨.error e, sr, mr, cr, ts⟩).app.daemon_status
          = none
      ∧ (handle_key_event ⟨App.new address, DaemonClient.new address⟩
            (.Char 'c') ⟨false⟩ ⟨.error e, sr, mr, cr, ts⟩).app.daemon_metrics
          = none
      ∧ (handle_key_event ⟨App.new address, DaemonClient.new address⟩
            (.Char 'c') ⟨false⟩ ⟨.error e, sr, mr, cr, ts⟩).client.is_connected
          = false := by
  refine ⟨rfl, rfl, ?_, rfl, rfl, rfl⟩
  simp [handle_key_event, connect_to_daemon, connect_begin, App.new,
    DaemonClient.new, DaemonClient.is_connected, List.filter]

/-! ### C5: disconnect is idempotent -/

/-- C5: from every connected state, the first disconnect performs the one
state change — status `Disconnected`, both snapshots cleared to `none`, the
session dropped — and a second disconnect in a row changes nothing except
appending one WARN log entry (`add_log`, with its usual auto-scroll). -/
theorem disconnect_idempotent (s : DState) (ts1 ts2 : String)
    (h : s.client.is_connected = true) :
    (disconnect_from_daemon s ts1).app.connection_status = .Disconnected
      ∧ (disconnect_from_daemon s ts1).app.daemon_status = none
      ∧ (disconnect_from_daemon s ts1).app.daemon_metrics = none
      ∧ (disconnect_from_daemon s ts1).client.is_connected = false
      ∧ disconnect_from_daemon (disconnect_from_daemon s ts1) ts2
          = { disconnect_from_daemon s ts1 with
              app := (disconnect_from_daemon s ts1).app.add_log ts2 "WARN"
                "Not connected" } := by
  have hconn : s.client.connected = true := h
  unfold disconnect_from_daemon
  simp [DaemonClient.is_connected, DaemonClient.disconnect, hconn]

/-- Witness for C5 at a concrete connected state. -/
theorem disconnect_idempotent_witness :
    (disconnect_from_daemon ⟨App.new "a", ⟨true, "a"⟩⟩ "t1").app.connection_status
        = ConnectionStatus.Disconnected
      ∧ (disconnect_from_daemon ⟨App.new "a", ⟨true, "a"⟩⟩ "t1").app.daemon_status
        = none :=
  ⟨(disconnect_idempotent ⟨App.new "a", ⟨true, "a"⟩⟩ "t1" "t2" rfl).1,
    (disconnect_idempotent ⟨App.new "a", ⟨true, "a"⟩⟩ "t1" "t2" rfl).2.1⟩

end TuiDaemon
